import Mathlib

/-!
Shallow embedding of `src/Sonerie_Video/src/main.cpp` (ESP32-CAM smart
doorbell).  The firmware's observable behaviour — digital writes to the
buzzer and the two LEDs, blocking delays, MQTT publishes, camera
captures/releases and serial logs — is modelled as a trace of `Action`s.
External collaborators (camera driver, MQTT transport, button input) are
modelled as explicit inputs: the camera as `Option` frames, the transport's
publish outcome as a boolean oracle, and the button as sampled levels.
-/

namespace Doorbell

/-- Digital pin level: `LOW`/`HIGH` as in Arduino `digitalWrite`/`digitalRead`. -/
inductive Level where
  | low
  | high
deriving DecidableEq, Repr

/-- The three output pins driven by the sketch: `LED_RED` (pin 12),
`LED_GREEN` (pin 15) and `BUZZER_PIN` (pin 13). -/
inductive OutPin where
  | ledRed
  | ledGreen
  | buzzer
deriving DecidableEq, Repr

/-- One observable step of the firmware. -/
inductive Action where
  /-- `digitalWrite(pin, level)` -/
  | write (pin : OutPin) (level : Level)
  /-- `delay(ms)` -/
  | delayMs (ms : Nat)
  /-- `client.publish(topic, payload)` (the attempt; its outcome comes from
  the transport oracle) -/
  | publish (topic : String) (payload : String)
  /-- `esp_camera_fb_get()` -/
  | capture
  /-- `esp_camera_fb_return(fb)` -/
  | releaseFrame
  /-- `client.loop()` inside `sendPhotoMQTT` (processes the MQTT queue) -/
  | clientLoop
  /-- the `while (digitalRead(BUTTON_PIN) == LOW) delay(10);` release wait -/
  | waitRelease
  /-- a `Serial.print`/`Serial.println` diagnostic -/
  | log (msg : String)
deriving DecidableEq, Repr

-- Timing constants (main.cpp lines 80-95).
def BUTTON_DEBOUNCE_MS : Nat := 50
def DOOR_UNLOCK_TIME_MS : Nat := 4000
def BUZZER_CONFIRM_MS : Nat := 50
def BUZZER_HAPPY_SHORT_MS : Nat := 150
def BUZZER_HAPPY_LONG_MS : Nat := 400
def ALARM_FLASH_COUNT : Nat := 5
def ALARM_FLASH_DELAY_MS : Nat := 100
def MQTT_BUFFER_SIZE : Nat := 60000
def IMAGE_SIZE_LIMIT : Nat := 60000

-- MQTT topics (main.cpp lines 70-72).
def topic_image : String := "your_unique_id/doorbell/photo"
def topic_alert : String := "your_unique_id/doorbell/alert"
def topic_command : String := "your_unique_id/doorbell/command"

/-- Levels of the three output pins.  The LEDs are wired active-low (a `LOW`
write turns them on, see the comments at main.cpp lines 163-164); the buzzer
is active-high. -/
structure Outputs where
  red : Level
  green : Level
  buzzer : Level
deriving DecidableEq, Repr

def redOn (s : Outputs) : Bool := s.red = Level.low
def greenOn (s : Outputs) : Bool := s.green = Level.low
def buzzerOn (s : Outputs) : Bool := s.buzzer = Level.high

/-- The locked idle state set by `setup()` (red on, green off, buzzer off):
main.cpp lines 213-215. -/
def lockedOutputs : Outputs :=
  { red := Level.low, green := Level.high, buzzer := Level.low }

/-- Effect of one action on the output pins: only `digitalWrite` changes
them. -/
def applyAction (s : Outputs) : Action → Outputs
  | Action.write OutPin.ledRed l => { s with red := l }
  | Action.write OutPin.ledGreen l => { s with green := l }
  | Action.write OutPin.buzzer l => { s with buzzer := l }
  | _ => s

/-- Fold a trace of actions over the output pins. -/
def applyTrace (s : Outputs) (tr : List Action) : Outputs :=
  tr.foldl applyAction s

def isWrite : Action → Bool
  | Action.write _ _ => true
  | _ => false

def isPublish : Action → Bool
  | Action.publish _ _ => true
  | _ => false

def isCapture : Action → Bool
  | Action.capture => true
  | _ => false

/-- One iteration of the access-denied alarm body (main.cpp lines 184-185),
repeated `n` times as by the `for` loop at line 183. -/
def alarmFlash : Nat → List Action
  | 0 => []
  | n + 1 =>
      [Action.write OutPin.ledRed Level.high, Action.write OutPin.buzzer Level.low,
       Action.delayMs ALARM_FLASH_DELAY_MS,
       Action.write OutPin.ledRed Level.low, Action.write OutPin.buzzer Level.high,
       Action.delayMs ALARM_FLASH_DELAY_MS]
      ++ alarmFlash n

set_option linter.unusedVariables false in
/-- `callback(topic, payload, length)` — the MQTT message handler
(main.cpp lines 148-194).  The payload bytes are modelled as the characters
they are cast to when building `message`; the `topic` argument is taken but,
as in the source, never examined. -/
def callback (topic : String) (payload : List Char) : List Action :=
  let message := String.mk payload
  Action.log ("Received command: " ++ message) ::
  (if message = "YES" then
    [Action.log "ACCESS GRANTED",
     Action.write OutPin.ledRed Level.high,
     Action.write OutPin.ledGreen Level.low,
     Action.write OutPin.buzzer Level.high,
     Action.delayMs BUZZER_HAPPY_SHORT_MS,
     Action.write OutPin.buzzer Level.low,
     Action.delayMs 100,
     Action.write OutPin.buzzer Level.high,
     Action.delayMs BUZZER_HAPPY_LONG_MS,
     Action.write OutPin.buzzer Level.low,
     Action.delayMs DOOR_UNLOCK_TIME_MS,
     Action.write OutPin.ledGreen Level.high,
     Action.write OutPin.ledRed Level.low]
  else if message = "NO" then
    Action.log "ACCESS DENIED" ::
    alarmFlash ALARM_FLASH_COUNT ++
    [Action.write OutPin.buzzer Level.low,
     Action.write OutPin.ledRed Level.low]
  else
    [Action.log ("Unknown command: " ++ message)])

/-- Modelled from the spec: the binary-to-text encoder (`base64.h`, not part
of this repository) is standard base64 — a pure deterministic function with
the usual `=`-padded 4-for-3 expansion.  `b64chars` maps each 3-byte group to
4 alphabet characters, padding the final partial group. -/
def base64Table : List Char :=
  "ABCDEFGHIJKLMNOPQRSTUVWXYZabcdefghijklmnopqrstuvwxyz0123456789+/".toList

def b64char (n : Nat) : Char := base64Table.getD n 'A'

def b64chars : List Nat → List Char
  | [] => []
  | [b0] =>
      [b64char (b0 / 4 % 64), b64char (b0 % 4 * 16), '=', '=']
  | [b0, b1] =>
      [b64char (b0 / 4 % 64), b64char (b0 % 4 * 16 + b1 / 16 % 16),
       b64char (b1 % 16 * 4), '=']
  | b0 :: b1 :: b2 :: rest =>
      [b64char (b0 / 4 % 64), b64char (b0 % 4 * 16 + b1 / 16 % 16),
       b64char (b1 % 16 * 4 + b2 / 64 % 4), b64char (b2 % 64)]
      ++ b64chars rest

/-- `base64::encode(fb->buf, fb->len)` — see `b64chars`. -/
def base64encode (bs : List Nat) : String := String.mk (b64chars bs)

/-- Modelled from the spec: the publish/subscribe transport (`PubSubClient`,
not part of this repository) reports a publish as failed exactly when the
payload text is at or above the configured maximum buffer size
(`MQTT_BUFFER_SIZE`, set by `client.setBufferSize`). -/
def bufferPublishOk (payload : String) : Bool :=
  payload.length < MQTT_BUFFER_SIZE

set_option linter.unusedVariables false in
/-- `sendPhotoMQTT()` (main.cpp lines 339-387).  The camera driver is an
external collaborator: `dummyFrame` and `realFrame` are the results of the
two `esp_camera_fb_get()` calls (`none` = NULL), and `pubOk topic payload`
is the transport's outcome for `client.publish`.  Returns the action trace
and the value of `isBusy` after the call (the function writes `isBusy =
false` on its two early-return paths and leaves it alone otherwise). -/
def sendPhotoMQTT (dummyFrame : Option (List Nat)) (realFrame : Option (List Nat))
    (pubOk : String → String → Bool) (busy : Bool) : List Action × Bool :=
  -- Step 1: dummy capture, returned immediately.  Step 2: real capture.
  let tr0 : List Action :=
    [Action.log "Clearing camera buffer", Action.capture, Action.releaseFrame,
     Action.log "Capturing photo", Action.capture]
  match realFrame with
  | none =>
      (tr0 ++ [Action.log "Camera capture failed"], false)
  | some fb =>
      if fb.length ≥ IMAGE_SIZE_LIMIT then
        (tr0 ++ [Action.log "Image too large", Action.releaseFrame], false)
      else
        -- Step 4: encode to Base64.  Step 5: publish.
        let imageBase64 := base64encode fb
        let pubTr : List Action :=
          if pubOk topic_image imageBase64 then
            [Action.publish topic_image imageBase64, Action.log "Sent",
             Action.clientLoop,
             Action.write OutPin.buzzer Level.high,
             Action.delayMs BUZZER_CONFIRM_MS,
             Action.write OutPin.buzzer Level.low]
          else
            [Action.publish topic_image imageBase64, Action.log "Failed to send"]
        (tr0 ++ pubTr ++ [Action.releaseFrame], busy)

/-- Broker-side MQTT session state: whether the client is connected, and how
many live subscriptions to the command topic it holds.  Modelled from the
spec: subscriptions do not survive a disconnect, so a fresh connection starts
with zero. -/
structure MqttState where
  connected : Bool
  subs : Nat
deriving DecidableEq, Repr

/-- Outcome of one iteration of the `reconnect()` retry loop: the
`client.connect` attempt fails, or it succeeds and the following
`client.subscribe(topic_command)` succeeds or fails (the transport contract
allows either; the source checks the subscribe result only to log). -/
inductive AttemptResult where
  | connFail
  | connOkSubOk
  | connOkSubFail
deriving DecidableEq, Repr

/-- `reconnect()` (main.cpp lines 302-321): loop while not connected; on a
successful connect, subscribe to the command topic once and fall out of the
loop.  `outs` scripts the transport outcomes of successive attempts; `none`
means the scripted outcomes were exhausted with the client still
disconnected (the source loops forever in that case). -/
def reconnect : List AttemptResult → MqttState → Option MqttState
  | [], s => if s.connected then some s else none
  | o :: rest, s =>
      if s.connected then some s
      else
        match o with
        | AttemptResult.connFail => reconnect rest s
        | AttemptResult.connOkSubOk => some { connected := true, subs := s.subs + 1 }
        | AttemptResult.connOkSubFail => some { connected := true, subs := s.subs }

/-- A disconnect observed by the client: connection lost, and the broker
drops the session's subscriptions (spec: subscriptions do not survive a
disconnect). -/
def disconnect (_ : MqttState) : MqttState :=
  { connected := false, subs := 0 }

/-- The external inputs consumed by one iteration of `loop()` (main.cpp
lines 393-428): the at-most-one inbound MQTT message delivered by
`client.loop()` (topic and payload characters), the two button samples
(`digitalRead(BUTTON_PIN)` before and after the debounce delay), the two
camera capture results and the transport publish oracle used if a doorbell
event runs this iteration.  The connection-maintenance preamble (lines
395-397) is modelled separately by `reconnect`. -/
structure LoopInput where
  msg : Option (String × List Char)
  btn1 : Level
  btn2 : Level
  dummyFrame : Option (List Nat)
  realFrame : Option (List Nat)
  pubOk : String → String → Bool

/-- Actions performed by the `client.loop()` poll at the top of `loop()`:
at most one buffered inbound message is delivered to `callback`. -/
def pollTrace (m : Option (String × List Char)) : List Action :=
  match m with
  | none => []
  | some (t, p) => callback t p

/-- One iteration of `loop()` (main.cpp lines 393-428), given the iteration's
inputs and the current value of the `isBusy` flag.  Returns the action trace
and the value of `isBusy` when the iteration ends. -/
def loopIter (inp : LoopInput) (busy : Bool) : List Action × Bool :=
  -- client.loop(): deliver at most one buffered inbound message to callback.
  let pollTr : List Action := pollTrace inp.msg
  if inp.btn1 = Level.low then
    -- delay(BUTTON_DEBOUNCE_MS), then re-sample the button.
    let tr1 := pollTr ++ [Action.delayMs BUTTON_DEBOUNCE_MS]
    if inp.btn2 = Level.low ∧ busy = false then
      -- isBusy = true; publish alert; sendPhotoMQTT; isBusy = false.
      let alertTr : List Action :=
        Action.log "DOORBELL PRESSED" ::
        Action.publish topic_alert "Visitor!" ::
        (if inp.pubOk topic_alert "Visitor!" then [Action.log "Alert sent"] else [])
      let photo := sendPhotoMQTT inp.dummyFrame inp.realFrame inp.pubOk true
      (tr1 ++ alertTr ++ photo.1 ++
        [Action.log "Ready for next visitor", Action.waitRelease, Action.delayMs 50],
       false)
    else
      (tr1, busy)
  else
    (pollTr, busy)

/-- Iterate `loopIter` over a list of per-iteration inputs, threading the
`isBusy` flag and concatenating the traces. -/
def runLoop : List LoopInput → Bool → List Action × Bool
  | [], busy => ([], busy)
  | i :: rest, busy =>
      let step := loopIter i busy
      let tail := runLoop rest step.2
      (step.1 ++ tail.1, tail.2)

/-- Number of doorbell events started in a trace: each event publishes the
fixed alert payload exactly once (main.cpp line 411). -/
def countEvents (tr : List Action) : Nat :=
  tr.countP (fun a => a = Action.publish topic_alert "Visitor!")

/-- An execution delivers no decision message when every iteration's inbound
message slot is empty. -/
def noDecisionDelivered (inputs : List LoopInput) : Prop :=
  ∀ i ∈ inputs, i.msg = none

/-- `true` when the trace contains no publish attempt and no camera capture:
no doorbell event activity. -/
def eventFree (tr : List Action) : Bool :=
  tr.all (fun a => !(isPublish a || isCapture a))

/-- The non-log actions of a trace (the digital writes, delays, publishes and
captures — the observable effects, with the serial diagnostics removed). -/
def effects (tr : List Action) : List Action :=
  tr.filter (fun a =>
    match a with
    | Action.log _ => false
    | _ => true)

/-- Written from the spec's actuation policy for `Granted` (§4.5): green
indicator on / red off (active-low writes), a two-tone confirmation (short
150 ms tone, 100 ms pause, long 400 ms tone), hold the unlocked visual state
for 4000 ms, then revert to the locked visual state. -/
def specGrantedSequence : List Action :=
  [Action.write OutPin.ledRed Level.high,
   Action.write OutPin.ledGreen Level.low,
   Action.write OutPin.buzzer Level.high,
   Action.delayMs 150,
   Action.write OutPin.buzzer Level.low,
   Action.delayMs 100,
   Action.write OutPin.buzzer Level.high,
   Action.delayMs 400,
   Action.write OutPin.buzzer Level.low,
   Action.delayMs 4000,
   Action.write OutPin.ledGreen Level.high,
   Action.write OutPin.ledRed Level.low]

/-- Written from the spec's actuation policy for `Denied` (§4.5): flash the
red indicator and buzzer in alternating antiphase (at the pin level: red pin
high with buzzer pin low, then red pin low with buzzer pin high) for 5
repetitions at a 100 ms half-period, then settle to the locked state with the
buzzer off. -/
def specDeniedSequence : List Action :=
  (List.replicate 5
    [Action.write OutPin.ledRed Level.high,
     Action.write OutPin.buzzer Level.low,
     Action.delayMs 100,
     Action.write OutPin.ledRed Level.low,
     Action.write OutPin.buzzer Level.high,
     Action.delayMs 100]).flatten
  ++ [Action.write OutPin.buzzer Level.low,
      Action.write OutPin.ledRed Level.low]

/-- First non-failing outcome in a scripted attempt list: the attempt on
which `reconnect` exits its retry loop. -/
def firstSuccessfulAttempt : List AttemptResult → Option AttemptResult
  | [] => none
  | AttemptResult.connFail :: rest => firstSuccessfulAttempt rest
  | o :: _ => some o

/-- A loop iteration in which the button is pressed and held through the
debounce delay, the camera returns a tiny frame, the transport accepts every
publish, and no inbound message is delivered. -/
def pressInput : LoopInput :=
  { msg := none, btn1 := Level.low, btn2 := Level.low,
    dummyFrame := some [0], realFrame := some [0],
    pubOk := fun _ _ => true }

/-- A loop iteration in which the button reads low but has bounced back high
by the second sample after the debounce delay. -/
def bounceInput : LoopInput :=
  { msg := none, btn1 := Level.low, btn2 := Level.high,
    dummyFrame := some [0], realFrame := some [0],
    pubOk := fun _ _ => true }

/-- A loop iteration with no button activity in which the poll delivers a
"YES" decision message on the command topic. -/
def msgInput : LoopInput :=
  { msg := some (topic_command, ['Y', 'E', 'S']), btn1 := Level.high,
    btn2 := Level.high, dummyFrame := none, realFrame := none,
    pubOk := fun _ _ => true }

/-! ### Helper lemmas -/

/-- Standard base64 length: 4 characters for every started 3-byte group. -/
theorem b64chars_length : ∀ bs : List Nat, (b64chars bs).length = 4 * ((bs.length + 2) / 3)
  | [] => by simp [b64chars]
  | [_] => by simp [b64chars]
  | [_, _] => by simp [b64chars]
  | _ :: _ :: _ :: rest => by
      simp only [b64chars, List.length_cons, List.length_append, List.length_nil]
      rw [b64chars_length rest]
      omega

theorem base64encode_length (bs : List Nat) :
    (base64encode bs).length = 4 * ((bs.length + 2) / 3) := by
  simpa [base64encode, String.length] using b64chars_length bs

/-- The message handler only writes pins, delays and logs: it never
publishes and never touches the camera. -/
theorem callback_eventFree (t : String) (p : List Char) :
    eventFree (callback t p) = true := by
  simp only [callback, eventFree]
  split
  · rfl
  · split
    · rfl
    · rfl

theorem eventFree_append (l1 l2 : List Action) :
    eventFree (l1 ++ l2) = (eventFree l1 && eventFree l2) := by
  simp [eventFree, List.all_append]

/-- The poll step delivers at most a decision message to `callback`, which
never publishes or captures. -/
theorem pollTrace_eventFree (m : Option (String × List Char)) :
    eventFree (pollTrace m) = true := by
  match m with
  | none => rfl
  | some (t, p) => exact callback_eventFree t p

/-- Every iteration of `loop()` ends with the busy flag clear when it began
clear: the event path executes `isBusy = false` (main.cpp line 418) before
the iteration ends, and the other paths never set it. -/
theorem loopIter_busy_false (i : LoopInput) : (loopIter i false).2 = false := by
  simp only [loopIter]
  split
  · split
    · rfl
    · rfl
  · rfl

/-- Iterating the loop from an idle start keeps the busy flag clear. -/
theorem runLoop_busy_false (inputs : List LoopInput) :
    (runLoop inputs false).2 = false := by
  induction inputs with
  | nil => rfl
  | cons i rest ih =>
      simp only [runLoop]
      rw [loopIter_busy_false i]
      exact ih

/-- Unfolding of the `reconnect` retry loop while disconnected: exhausted
script. -/
theorem reconnect_nil (s : MqttState) (h : s.connected = false) :
    reconnect [] s = none := by
  simp only [reconnect]
  rw [if_neg (by simp [h])]

/-- While disconnected, a failed connect attempt retries with the remaining
script. -/
theorem reconnect_connFail (rest : List AttemptResult) (s : MqttState)
    (h : s.connected = false) :
    reconnect (AttemptResult.connFail :: rest) s = reconnect rest s := by
  simp only [reconnect]
  rw [if_neg (by simp [h])]

/-- While disconnected, a successful connect followed by a successful
subscribe ends connected with one more subscription. -/
theorem reconnect_subOk (rest : List AttemptResult) (s : MqttState)
    (h : s.connected = false) :
    reconnect (AttemptResult.connOkSubOk :: rest) s =
      some { connected := true, subs := s.subs + 1 } := by
  simp only [reconnect]
  rw [if_neg (by simp [h])]

/-- While disconnected, a successful connect whose subscribe is rejected
ends connected with the subscription count untouched. -/
theorem reconnect_subFail (rest : List AttemptResult) (s : MqttState)
    (h : s.connected = false) :
    reconnect (AttemptResult.connOkSubFail :: rest) s =
      some { connected := true, subs := s.subs } := by
  simp only [reconnect]
  rw [if_neg (by simp [h])]

/-! ### Claim theorems -/

/-- C10: the decision-message handler's behaviour depends only on the payload
bytes, never on the topic: two delivered messages with equal payloads on
different topics produce identical action traces (actuation and logging); the
topic argument is never examined. -/
theorem C10_topic_ignored (t1 t2 : String) (p : List Char) :
    callback t1 p = callback t2 p := rfl

/-- C6: when the real capture returns no frame, the doorbell event is
aborted: the trace shows the dummy frame already released and nothing further
to release, no publish to any topic occurs, the actuator outputs are left
unchanged, and the busy flag is cleared (back to idle). -/
theorem C6_capture_failure_aborts (dummy : Option (List Nat))
    (pub : String → String → Bool) (busy : Bool) (s : Outputs) :
    sendPhotoMQTT dummy none pub busy =
      ([Action.log "Clearing camera buffer", Action.capture, Action.releaseFrame,
        Action.log "Capturing photo", Action.capture,
        Action.log "Camera capture failed"], false) ∧
    (sendPhotoMQTT dummy none pub busy).1.countP isPublish = 0 ∧
    applyTrace s (sendPhotoMQTT dummy none pub busy).1 = s ∧
    (sendPhotoMQTT dummy none pub busy).2 = false :=
  ⟨rfl, rfl, rfl, rfl⟩

/-- C7: a delivered decision message whose payload is neither exactly "YES"
nor exactly "NO" makes the handler log a warning and nothing else: its trace
is just the two diagnostics, so the actuator state is completely
unchanged. -/
theorem C7_unknown_command_no_actuation (t : String) (p : List Char) (s : Outputs)
    (h1 : String.mk p ≠ "YES") (h2 : String.mk p ≠ "NO") :
    callback t p =
      [Action.log ("Received command: " ++ String.mk p),
       Action.log ("Unknown command: " ++ String.mk p)] ∧
    applyTrace s (callback t p) = s := by
  have htr : callback t p =
      [Action.log ("Received command: " ++ String.mk p),
       Action.log ("Unknown command: " ++ String.mk p)] := by
    simp only [callback]
    rw [if_neg h1, if_neg h2]
  refine ⟨htr, ?_⟩
  rw [htr]
  rfl

theorem C7_witness :
    String.mk ['H', 'I'] ≠ "YES" ∧ String.mk ['H', 'I'] ≠ "NO" ∧
    (callback topic_command ['H', 'I'] =
      [Action.log ("Received command: " ++ String.mk ['H', 'I']),
       Action.log ("Unknown command: " ++ String.mk ['H', 'I'])] ∧
     applyTrace lockedOutputs (callback topic_command ['H', 'I']) = lockedOutputs) :=
  ⟨by decide, by decide,
   C7_unknown_command_no_actuation topic_command ['H', 'I'] lockedOutputs
     (by decide) (by decide)⟩

/-- C4: a "YES" decision produces exactly the Granted actuation the spec
prescribes (green on / red off, short tone, pause, long tone, 4000 ms
unlocked hold — during which green is on and red off — then revert), ending
in the locked state; a "NO" decision produces exactly the Denied actuation
(5 antiphase red/buzzer flashes at 100 ms half-period) and settles to the
locked state with the buzzer off.  The green LED is only ever lit inside the
"YES" hold window, so the handler runs from states with green off. -/
theorem C4_decision_actuation (t : String) (s : Outputs) (hg : s.green = Level.high) :
    effects (callback t ['Y', 'E', 'S']) = specGrantedSequence ∧
    applyTrace s (callback t ['Y', 'E', 'S']) = lockedOutputs ∧
    greenOn (applyTrace s ((callback t ['Y', 'E', 'S']).take 11)) = true ∧
    redOn (applyTrace s ((callback t ['Y', 'E', 'S']).take 11)) = false ∧
    ((callback t ['Y', 'E', 'S']).drop 11).head? =
      some (Action.delayMs DOOR_UNLOCK_TIME_MS) ∧
    effects (callback t ['N', 'O']) = specDeniedSequence ∧
    applyTrace s (callback t ['N', 'O']) = lockedOutputs ∧
    buzzerOn (applyTrace s (callback t ['N', 'O'])) = false := by
  obtain ⟨r, g, b⟩ := s
  simp only at hg
  subst hg
  exact ⟨rfl, rfl, rfl, rfl, rfl, rfl, rfl, rfl⟩

theorem C4_witness :
    lockedOutputs.green = Level.high ∧
    (effects (callback topic_command ['Y', 'E', 'S']) = specGrantedSequence ∧
     applyTrace lockedOutputs (callback topic_command ['Y', 'E', 'S']) = lockedOutputs ∧
     greenOn (applyTrace lockedOutputs ((callback topic_command ['Y', 'E', 'S']).take 11)) = true ∧
     redOn (applyTrace lockedOutputs ((callback topic_command ['Y', 'E', 'S']).take 11)) = false ∧
     ((callback topic_command ['Y', 'E', 'S']).drop 11).head? =
       some (Action.delayMs DOOR_UNLOCK_TIME_MS) ∧
     effects (callback topic_command ['N', 'O']) = specDeniedSequence ∧
     applyTrace lockedOutputs (callback topic_command ['N', 'O']) = lockedOutputs ∧
     buzzerOn (applyTrace lockedOutputs (callback topic_command ['N', 'O'])) = false) :=
  ⟨rfl, C4_decision_actuation topic_command lockedOutputs rfl⟩

/-- C3: a captured frame at or above `IMAGE_SIZE_LIMIT` (60000) makes the
pipeline release the frame and bail out — the trace ends at the release,
with no publish attempt; a frame strictly below the limit leads to a base64
encode and a publish attempt on the image topic. -/
theorem C3_size_gate (dummy : Option (List Nat)) (pub : String → String → Bool)
    (busy : Bool) (fb : List Nat) :
    (IMAGE_SIZE_LIMIT ≤ fb.length →
      sendPhotoMQTT dummy (some fb) pub busy =
        ([Action.log "Clearing camera buffer", Action.capture, Action.releaseFrame,
          Action.log "Capturing photo", Action.capture,
          Action.log "Image too large", Action.releaseFrame], false) ∧
      (sendPhotoMQTT dummy (some fb) pub busy).1.countP isPublish = 0) ∧
    (fb.length < IMAGE_SIZE_LIMIT →
      Action.publish topic_image (base64encode fb) ∈
        (sendPhotoMQTT dummy (some fb) pub busy).1) := by
  constructor
  · intro h
    have htr : sendPhotoMQTT dummy (some fb) pub busy =
        ([Action.log "Clearing camera buffer", Action.capture, Action.releaseFrame,
          Action.log "Capturing photo", Action.capture,
          Action.log "Image too large", Action.releaseFrame], false) := by
      simp only [sendPhotoMQTT]
      rw [if_pos h]
      rfl
    refine ⟨htr, ?_⟩
    rw [htr]
    rfl
  · intro h
    simp only [sendPhotoMQTT]
    rw [if_neg (not_le.mpr h)]
    by_cases hp : pub topic_image (base64encode fb) = true
    · simp [hp]
    · simp only [Bool.not_eq_true] at hp
      simp [hp]

theorem C3_witness :
    IMAGE_SIZE_LIMIT ≤ (List.replicate 60000 0).length ∧
    (sendPhotoMQTT none (some (List.replicate 60000 0)) (fun _ _ => true) true =
       ([Action.log "Clearing camera buffer", Action.capture, Action.releaseFrame,
         Action.log "Capturing photo", Action.capture,
         Action.log "Image too large", Action.releaseFrame], false) ∧
     (sendPhotoMQTT none (some (List.replicate 60000 0)) (fun _ _ => true) true).1.countP
       isPublish = 0) ∧
    [1].length < IMAGE_SIZE_LIMIT ∧
    Action.publish topic_image (base64encode [1]) ∈
      (sendPhotoMQTT none (some [1]) (fun _ _ => true) true).1 :=
  ⟨by rw [List.length_replicate]; exact Nat.le_refl 60000,
   (C3_size_gate none (fun _ _ => true) true (List.replicate 60000 0)).1
     (by rw [List.length_replicate]; exact Nat.le_refl 60000),
   by decide,
   (C3_size_gate none (fun _ _ => true) true [1]).2 (by decide)⟩

/-- C8: when the button reads low but has bounced back high by the second
sample taken after the 50 ms debounce delay, no doorbell event is created:
the iteration's trace is just the poll actions plus the debounce delay
(nothing published, no capture), and the busy flag keeps its value (it is
never set). -/
theorem C8_bounce_no_event (i : LoopInput) (busy : Bool)
    (h1 : i.btn1 = Level.low) (h2 : i.btn2 = Level.high) :
    loopIter i busy = (pollTrace i.msg ++ [Action.delayMs BUTTON_DEBOUNCE_MS], busy) ∧
    eventFree (loopIter i busy).1 = true ∧
    (loopIter i busy).2 = busy := by
  have hne : ¬(i.btn2 = Level.low ∧ busy = false) := by
    rw [h2]
    rintro ⟨hc, -⟩
    exact absurd hc (by decide)
  have htr : loopIter i busy =
      (pollTrace i.msg ++ [Action.delayMs BUTTON_DEBOUNCE_MS], busy) := by
    simp only [loopIter]
    rw [if_pos h1, if_neg hne]
  refine ⟨htr, ?_, by rw [htr]⟩
  rw [htr]
  show eventFree (pollTrace i.msg ++ [Action.delayMs BUTTON_DEBOUNCE_MS]) = true
  rw [eventFree_append, pollTrace_eventFree]
  rfl

theorem C8_witness :
    bounceInput.btn1 = Level.low ∧ bounceInput.btn2 = Level.high ∧
    (loopIter bounceInput false =
       (pollTrace bounceInput.msg ++ [Action.delayMs BUTTON_DEBOUNCE_MS], false) ∧
     eventFree (loopIter bounceInput false).1 = true ∧
     (loopIter bounceInput false).2 = false) :=
  ⟨rfl, rfl, C8_bounce_no_event bounceInput false rfl rfl⟩

/-- C9: the busy flag is set and cleared within a single loop iteration on
every path, so every iteration that starts idle ends idle (and by induction a
whole run from the idle start stays idle at every iteration boundary), and a
decision message delivered by the poll is processed by `callback` even when
no doorbell event is pending. -/
theorem C9_busy_invariant (i : LoopInput) (inputs : List LoopInput)
    (t : String) (p : List Char) :
    (loopIter i false).2 = false ∧
    (runLoop inputs false).2 = false ∧
    (i.msg = some (t, p) → ∃ rest, (loopIter i false).1 = callback t p ++ rest) := by
  refine ⟨loopIter_busy_false i, runLoop_busy_false inputs, ?_⟩
  intro hm
  simp only [loopIter, pollTrace, hm]
  split
  · split
    · simp only [List.append_assoc]
      exact ⟨_, rfl⟩
    · exact ⟨[Action.delayMs BUTTON_DEBOUNCE_MS], rfl⟩
  · exact ⟨[], (List.append_nil _).symm⟩

theorem C9_witness :
    msgInput.msg = some (topic_command, ['Y', 'E', 'S']) ∧
    (loopIter msgInput false).2 = false ∧
    (runLoop [msgInput] false).2 = false ∧
    (∃ rest, (loopIter msgInput false).1 = callback topic_command ['Y', 'E', 'S'] ++ rest) :=
  ⟨rfl,
   (C9_busy_invariant msgInput [msgInput] topic_command ['Y', 'E', 'S']).1,
   (C9_busy_invariant msgInput [msgInput] topic_command ['Y', 'E', 'S']).2.1,
   (C9_busy_invariant msgInput [msgInput] topic_command ['Y', 'E', 'S']).2.2 rfl⟩

/-- C2: for every raw length n with 45000 ≤ n < 60000 the size gate admits
the frame (n < `IMAGE_SIZE_LIMIT`), base64 encoding succeeds with encoded
length 4·⌈n/3⌉ (for n = 59999: 80000 ≈ the spec's "about 79800"), that
length is at or above the 60000-byte transport buffer, so under the
transport's buffer rule the publish of such a frame is reported as
failed. -/
theorem C2_constant_mismatch (n : Nat) (fb : List Nat)
    (h1 : 45000 ≤ n) (h2 : n < 60000) (hlen : fb.length = n) :
    fb.length < IMAGE_SIZE_LIMIT ∧
    (base64encode fb).length = 4 * ((n + 2) / 3) ∧
    MQTT_BUFFER_SIZE ≤ (base64encode fb).length ∧
    bufferPublishOk (base64encode fb) = false ∧
    Action.log "Failed to send" ∈
      (sendPhotoMQTT none (some fb) (fun _ payload => bufferPublishOk payload) true).1 := by
  have hgate : fb.length < IMAGE_SIZE_LIMIT := by
    rw [hlen]
    exact h2
  have hlen64 : (base64encode fb).length = 4 * ((n + 2) / 3) := by
    rw [base64encode_length, hlen]
  have hge : MQTT_BUFFER_SIZE ≤ (base64encode fb).length := by
    rw [hlen64]
    show 60000 ≤ 4 * ((n + 2) / 3)
    omega
  have hpub : bufferPublishOk (base64encode fb) = false := by
    simp only [bufferPublishOk, decide_eq_false_iff_not, not_lt]
    exact hge
  refine ⟨hgate, hlen64, hge, hpub, ?_⟩
  simp only [sendPhotoMQTT]
  rw [if_neg (not_le.mpr hgate)]
  simp [hpub]

theorem C2_witness :
    45000 ≤ 59999 ∧ 59999 < 60000 ∧ (List.replicate 59999 0).length = 59999 ∧
    ((List.replicate 59999 0).length < IMAGE_SIZE_LIMIT ∧
     (base64encode (List.replicate 59999 0)).length = 4 * ((59999 + 2) / 3) ∧
     MQTT_BUFFER_SIZE ≤ (base64encode (List.replicate 59999 0)).length ∧
     bufferPublishOk (base64encode (List.replicate 59999 0)) = false ∧
     Action.log "Failed to send" ∈
       (sendPhotoMQTT none (some (List.replicate 59999 0))
         (fun _ payload => bufferPublishOk payload) true).1) :=
  ⟨by decide, by decide, by rw [List.length_replicate],
   C2_constant_mismatch 59999 (List.replicate 59999 0) (by decide) (by decide)
     (by rw [List.length_replicate])⟩

/-- C1 counterexample: the claim "if no decision message ever arrives, the
busy flag remains set indefinitely and every subsequent button press is
ignored" is false on the code.  In a two-iteration execution in which no
decision message is ever delivered, both button presses start doorbell
events — the alert is published twice — and the run ends with the busy flag
clear, because `loop()` executes `isBusy = false` in the same iteration that
published the photo (main.cpp line 418). -/
theorem C1_cex_second_event_without_decision :
    noDecisionDelivered [pressInput, pressInput] ∧
    countEvents (runLoop [pressInput, pressInput] false).1 = 2 ∧
    (runLoop [pressInput, pressInput] false).2 = false := by
  refine ⟨?_, rfl, rfl⟩
  intro i hi
  simp only [List.mem_cons, List.not_mem_nil, or_false] at hi
  rcases hi with rfl | rfl
  · rfl
  · rfl

/-- C1 (amended): after the alert and photo publishes of a doorbell event
the busy flag is cleared before the loop iteration ends, even when no
decision message arrives; the machine does not block awaiting a decision, so
any later iteration in which the button is held low through the debounce
delay starts a new doorbell event (publishes the alert again). -/
theorem C1_amended_busy_cleared (i : LoopInput)
    (h1 : i.btn1 = Level.low) (h2 : i.btn2 = Level.low) :
    (loopIter i false).2 = false ∧
    Action.publish topic_alert "Visitor!" ∈ (loopIter i false).1 := by
  refine ⟨loopIter_busy_false i, ?_⟩
  simp only [loopIter]
  rw [if_pos h1, if_pos ⟨h2, trivial⟩]
  simp

theorem C1_amended_witness :
    pressInput.btn1 = Level.low ∧ pressInput.btn2 = Level.low ∧
    ((loopIter pressInput false).2 = false ∧
     Action.publish topic_alert "Visitor!" ∈ (loopIter pressInput false).1) :=
  ⟨rfl, rfl, C1_amended_busy_cleared pressInput rfl rfl⟩

/-- C5 counterexample: the claim "the device is never in a state where it is
connected to the broker but subscribed to the command topic zero times" is
false on the code.  A disconnect/reconnect cycle in which the broker accepts
the connection but rejects the subscription ends connected with zero
subscriptions, because `reconnect` checks the result of
`client.subscribe(topic_command)` only to log it (main.cpp lines 312-315). -/
theorem C5_cex_connected_zero_subs :
    reconnect [AttemptResult.connOkSubFail] (disconnect { connected := true, subs := 1 }) =
      some { connected := true, subs := 0 } := by
  rw [reconnect_subFail _ _ rfl]
  rfl

/-- C5 (amended): each successful reconnect attempts the command-topic
subscription exactly once — starting disconnected with zero live
subscriptions, a terminating `reconnect` ends connected with exactly one
subscription when the broker accepted the subscribe, and with zero (the
device stays connected and unsubscribed) when the broker rejected it. -/
theorem C5_amended_subscribe_once (outs : List AttemptResult) (s s' : MqttState)
    (hconn : s.connected = false) (hsubs : s.subs = 0)
    (h : reconnect outs s = some s') :
    s'.connected = true ∧
    (firstSuccessfulAttempt outs = some AttemptResult.connOkSubOk → s'.subs = 1) ∧
    (firstSuccessfulAttempt outs = some AttemptResult.connOkSubFail → s'.subs = 0) := by
  induction outs with
  | nil =>
      rw [reconnect_nil _ hconn] at h
      cases h
  | cons o rest ih =>
      cases o with
      | connFail =>
          rw [reconnect_connFail _ _ hconn] at h
          simp only [firstSuccessfulAttempt]
          exact ih h
      | connOkSubOk =>
          rw [reconnect_subOk _ _ hconn] at h
          injection h with h'
          subst h'
          refine ⟨rfl, fun _ => by simp [hsubs], fun hfa => ?_⟩
          simp [firstSuccessfulAttempt] at hfa
      | connOkSubFail =>
          rw [reconnect_subFail _ _ hconn] at h
          injection h with h'
          subst h'
          refine ⟨rfl, fun hfa => ?_, fun _ => hsubs⟩
          simp [firstSuccessfulAttempt] at hfa

theorem C5_amended_witness :
    (MqttState.mk false 0).connected = false ∧
    (MqttState.mk false 0).subs = 0 ∧
    reconnect [AttemptResult.connFail, AttemptResult.connOkSubOk] (MqttState.mk false 0) =
      some (MqttState.mk true 1) ∧
    ((MqttState.mk true 1).connected = true ∧
     (firstSuccessfulAttempt [AttemptResult.connFail, AttemptResult.connOkSubOk] =
        some AttemptResult.connOkSubOk → (MqttState.mk true 1).subs = 1) ∧
     (firstSuccessfulAttempt [AttemptResult.connFail, AttemptResult.connOkSubOk] =
        some AttemptResult.connOkSubFail → (MqttState.mk true 1).subs = 0)) := by
  have hre : reconnect [AttemptResult.connFail, AttemptResult.connOkSubOk]
      (MqttState.mk false 0) = some (MqttState.mk true 1) := by
    rw [reconnect_connFail _ _ rfl, reconnect_subOk _ _ rfl]
  exact ⟨rfl, rfl, hre, C5_amended_subscribe_once _ _ _ rfl rfl hre⟩

end Doorbell
